import Mathlib

/-!
Verification of the SentinelID streaming control plane
(`src/frontend/src/app/dashboard/aliases/page.tsx`).

Shallow embedding of the WebRTC session/streaming logic of the dashboard
page: ICE candidate buffering and flushing, the data-channel reconnect
machinery, control-message sending guards, click-response handling, the
scroll debouncer, stream teardown (`stopStream`), and the quality-monitor
bitrate computation.
-/

namespace SentinelID

/-! ## ICE candidate buffering (`startStream`)

The source sets `pendingCandidatesRef.current = []`, installs
`pc.onicecandidate`, and, after the offer round-trip stores
`(pc as any)._pcId = res.data.pc_id`, posts every pending candidate in
order and clears the buffer. -/

namespace Ice

/-- Candidate payloads (`ev.candidate.toJSON()`) are opaque here. -/
abbrev Cand := Nat

/-- The parts of the streaming context that the candidate logic touches:
`(pc as any)._pcId`, `pendingCandidatesRef.current`, and the ordered list
of candidates posted to `POST /api/webrtc/candidate`. -/
structure St where
  pcId : Option Nat
  buffer : List Cand
  posted : List Cand
deriving Repr, DecidableEq

/-- State right after `startStream` resets `pendingCandidatesRef.current = []`
and before any candidate is discovered: no `_pcId`, empty buffer, nothing
posted yet. -/
def init : St := { pcId := none, buffer := [], posted := [] }

/-- `pc.onicecandidate` with a non-null `ev.candidate`:
if `(pc as any)._pcId` is set the candidate is posted immediately,
otherwise it is pushed onto `pendingCandidatesRef.current`. -/
def onIceCandidate (s : St) (c : Cand) : St :=
  match s.pcId with
  | some _ => { s with posted := s.posted ++ [c] }
  | none => { s with buffer := s.buffer ++ [c] }

/-- The offer response: `(pc as any)._pcId = res.data.pc_id`, then the
`for (const cand of pendingCandidatesRef.current)` loop posts each buffered
candidate in order, then `pendingCandidatesRef.current = []`. -/
def onOfferResponse (s : St) (id : Nat) : St :=
  { pcId := some id, posted := s.posted ++ s.buffer, buffer := [] }

/-- Events relevant to candidate routing, in the order the browser
delivers them. -/
inductive Ev where
  | cand (c : Cand)
  | offer (id : Nat)
deriving Repr, DecidableEq

def step (s : St) : Ev → St
  | .cand c => onIceCandidate s c
  | .offer id => onOfferResponse s id

def run (s : St) (es : List Ev) : St := es.foldl step s

end Ice

/-! ## Data-channel reconnect machinery

The source handlers modelled here (all inside `createPeerConnection` /
`startStream`):

* `dc.onopen` — `setIsStreaming(true)`, `webrtcRef.current.reconnectAttempts = 0`,
  and one `dc.send({type: "ping", ...})`.
* `dc.onmessage` with `data.type === "pong"` — only `addDebugLog`.
* `dc.onclose` — `setIsStreaming(false)`; if `reconnectAttempts < 3`,
  schedule `reconnectTimeoutRef.current = setTimeout(..., 2000 * reconnectAttempts)`;
  otherwise show the terminal "Failed to reconnect after multiple attempts"
  toast.
* the scheduled timeout body — `reconnectAttempts++`, toast `(n/3)`, then
  `startStream(sessionId)`; `startStream` installs
  `webrtcRef.current = { pc, dc, sessionId, reconnectAttempts: 0 }`, so a
  timer-driven restart resets the counter to 0. -/

namespace Rtc

/-- Observable state of the reconnect machinery: the attempt counter
(`webrtcRef.current.reconnectAttempts`), the pending reconnect timeout with
its delay in ms (`reconnectTimeoutRef.current`), the `attempts` value seen
by each timer-driven `startStream` invocation (in order), whether the
terminal failure toast was shown, `isStreaming`, the number of `ping`
messages sent on the channel, and the number of pong log entries. -/
structure St where
  attempts : Nat
  timer : Option Nat
  startLog : List Nat
  failedToast : Bool
  isStreaming : Bool
  pings : Nat
  pongLogs : Nat
deriving Repr, DecidableEq

/-- State installed by a fresh `startStream`: `reconnectAttempts: 0`, no
timer pending, nothing logged or sent yet. -/
def init : St :=
  { attempts := 0, timer := none, startLog := [], failedToast := false
    isStreaming := false, pings := 0, pongLogs := 0 }

/-- Channel events, in program order of the sequential model. -/
inductive Ev where
  | dcOpen
  | dcPong
  | dcClose
  | timerFire
deriving Repr, DecidableEq

/-- One handler execution.  `timerFire` is the body of the scheduled
timeout: `reconnectAttempts++` happens first, then `startStream` runs with
that incremented value (recorded in `startLog`) and resets the counter to 0
via `webrtcRef.current = { ..., reconnectAttempts: 0 }`. -/
def step (s : St) : Ev → St
  | .dcOpen =>
      { s with isStreaming := true, attempts := 0, pings := s.pings + 1 }
  | .dcPong =>
      { s with pongLogs := s.pongLogs + 1 }
  | .dcClose =>
      if s.attempts < 3 then
        { s with isStreaming := false, timer := some (2000 * s.attempts) }
      else
        { s with isStreaming := false, failedToast := true }
  | .timerFire =>
      match s.timer with
      | none => s
      | some _ =>
          { s with timer := none, attempts := 0
                   startLog := s.startLog ++ [s.attempts + 1] }

def run (s : St) (es : List Ev) : St := es.foldl step s

end Rtc

/-! ## Control-channel messages: senders and the `click_response` handler -/

namespace Control

/-- A minimal model of an `RTCDataChannel` as the sender guards see it:
only `readyState` is consulted (compared against the string "open"). -/
structure DC where
  readyState : String
deriving Repr, DecidableEq

/-- The common guard `!dc || dc.readyState !== "open"` of `handleVideoClick`,
the debounced `sendScroll` body, and `sendType`, phrased positively: the
channel is ready when a data channel exists and its `readyState` is
"open". -/
def channelReady (dc : Option DC) : Bool :=
  match dc with
  | none => false
  | some d => d.readyState == "open"

/-- The outbound click message
`{ type: "click", x, y, id: clickId, timestamp }` of `handleVideoClick`.
The correlation token goes into the field named `id`. -/
structure ClickMsg where
  x : Nat
  y : Nat
  id : String
  timestamp : Nat
deriving Repr, DecidableEq

/-- The outbound `{ type: "scroll", deltaY: dy }` message. -/
structure ScrollMsg where
  deltaY : Int
deriving Repr, DecidableEq

/-- The outbound `{ type: "type", text }` message. -/
structure TypeMsg where
  text : String
deriving Repr, DecidableEq

/-- `handleVideoClick`, reduced to its channel interaction: with the guard
failed it sends nothing and reports "Control channel not ready" (the Bool
component); with the guard passed it sends exactly the click message with
the generated `clickId` in field `id`. -/
def handleVideoClick (dc : Option DC) (x y : Nat) (clickId : String)
    (ts : Nat) : Option ClickMsg × Bool :=
  if channelReady dc then
    (some { x := x, y := y, id := clickId, timestamp := ts }, false)
  else
    (none, true)

/-- The body of the debounced `sendScroll` (what runs when the debounce
timer fires): guard, then `dc.send({ type: "scroll", deltaY: dy })`. -/
def sendScrollBody (dc : Option DC) (dy : Int) : Option ScrollMsg × Bool :=
  if channelReady dc then (some { deltaY := dy }, false) else (none, true)

/-- `sendType`: guard, then `dc.send({ type: "type", text })`. -/
def sendType (dc : Option DC) (text : String) : Option TypeMsg × Bool :=
  if channelReady dc then (some { text := text }, false) else (none, true)

/-- An incoming data-channel JSON object as `dc.onmessage` inspects it.
The handler reads `data.type`, `data.success`, `data.clickId` and
`data.error`; the field named `id` (the one outbound clicks populate) is
carried here to show the handler never looks at it.  Absent JSON fields
are `none`. -/
structure Incoming where
  type : String
  success : Bool
  id : Option String
  clickId : Option String
  error : Option String
deriving Repr, DecidableEq

/-- What `dc.onmessage` does with a parsed message. -/
inductive Outcome where
  | ignored
  | pongLogged
  | toastSuccess (toastId : Option String)
  | toastError (toastId : Option String) (err : Option String)
deriving Repr, DecidableEq

/-- `dc.onmessage` after a successful `JSON.parse`: a `pong` is logged; a
`click_response` always produces a toast keyed by `data.clickId`
(success or error according to `data.success`); anything else does
nothing. -/
def onMessage (m : Incoming) : Outcome :=
  if m.type == "pong" then .pongLogged
  else if m.type == "click_response" then
    if m.success then .toastSuccess m.clickId
    else .toastError m.clickId m.error
  else .ignored

end Control

/-! ## Scroll debouncing

The source `debounce(fn, wait)` keeps one timer: every call clears the
pending timer and schedules `fn(args)` at `now + wait`; `sendScroll` is
the debounced body with `wait = 100`. -/

namespace Scroll

/-- The debounce window used by `sendScroll` (ms). -/
def scrollWait : Nat := 100

/-- Given the timestamped calls `(t, dy)` to the debounced function in
increasing time order, the list of payloads whose timer actually fires.
A call at time `t` schedules its timer at `t + w`; the timer fires unless
a later call arrives strictly before `t + w` (that call runs
`clearTimeout` and reschedules).  The final pending timer always fires. -/
def fired (w : Nat) : List (Nat × Int) → List Int
  | [] => []
  | [(_, d)] => [d]
  | (t, d) :: (t', d') :: rest =>
      if t + w ≤ t' then d :: fired w ((t', d') :: rest)
      else fired w ((t', d') :: rest)

end Scroll

/-! ## Stream teardown (`stopStream`) -/

namespace Cleanup

/-- The `webrtcRef.current` record (`WebRTCConfig`): pc and dc are opaque
handles here. -/
structure WebRTCConfig where
  pc : Option Nat
  dc : Option Nat
  sessionId : Option String
  reconnectAttempts : Nat
deriving Repr, DecidableEq

/-- All mutable context that `stopStream` reads or writes, plus
`pendingCandidatesRef`, which it does not touch. -/
structure Ctx where
  reconnectTimeout : Option Nat
  statsInterval : Option Nat
  webrtc : WebRTCConfig
  videoSrc : Bool
  pendingCandidates : List Nat
  isStreaming : Bool
  fps : Nat
  bitrate : Nat
deriving Repr, DecidableEq

/-- Externally observable actions `stopStream` performs.  The two `close`
calls and the track stop sit in one `try { } catch { }` in the source;
per the WebRTC API `RTCDataChannel.close()` and `RTCPeerConnection.close()`
never throw (closing an already-closed or errored transport is a no-op),
so the `try` body always completes and `stopStream` never propagates an
exception. -/
inductive Eff where
  | clearReconnectTimer
  | clearStatsInterval
  | closeDc
  | closePc
  | stopTracks
deriving Repr, DecidableEq

/-- `stopStream`: clear the reconnect timeout and stats interval if
pending, close the data channel and peer connection if present, stop and
detach the video tracks if attached, then reset `webrtcRef.current` to the
null config, `setIsStreaming(false)` and zero the stream quality.
`pendingCandidatesRef.current` is left as-is (only `startStream` resets
it).  Returns the new state and the actions performed, in program
order. -/
def stopStream (s : Ctx) : Ctx × List Eff :=
  let effTimer : List Eff :=
    if s.reconnectTimeout.isSome then [.clearReconnectTimer] else []
  let effStats : List Eff :=
    if s.statsInterval.isSome then [.clearStatsInterval] else []
  let effDc : List Eff := if s.webrtc.dc.isSome then [.closeDc] else []
  let effPc : List Eff := if s.webrtc.pc.isSome then [.closePc] else []
  let effTracks : List Eff := if s.videoSrc then [.stopTracks] else []
  ({ reconnectTimeout := none
     statsInterval := none
     webrtc := { pc := none, dc := none, sessionId := none, reconnectAttempts := 0 }
     videoSrc := false
     pendingCandidates := s.pendingCandidates
     isStreaming := false
     fps := 0
     bitrate := 0 },
   effTimer ++ effStats ++ effDc ++ effPc ++ effTracks)

/-- A context is released when every resource `stopStream` manages is
already gone: no timers, null `webrtcRef` config, no attached video, not
streaming, zeroed quality. -/
def isReleased (s : Ctx) : Bool :=
  s.reconnectTimeout == none && s.statsInterval == none &&
    s.webrtc == { pc := none, dc := none, sessionId := none, reconnectAttempts := 0 } &&
    s.videoSrc == false && s.isStreaming == false && s.fps == 0 && s.bitrate == 0

/-- The (first stage of) `startStream` resets the candidate buffer:
`pendingCandidatesRef.current = []`. -/
def startStreamResetBuffer (s : Ctx) : Ctx :=
  { s with pendingCandidates := [] }

end Cleanup

/-! ## Quality monitor bitrate sample -/

namespace Stats

/-- The sampling period of the quality monitor: the `setInterval` delay in
`pc.ontrack` (ms). -/
def statsIntervalMs : Nat := 2000

/-- JavaScript `Math.round` on a nonnegative value: round half up,
`Math.round(x) = floor(x + 0.5)`. -/
def mathRound (q : ℚ) : ℤ := ⌊q + 1 / 2⌋

/-- The published bitrate of one stats sample:
`Math.round(report.bytesReceived * 8 / 1000)`, where `bytesReceived` is
the cumulative received-byte counter of the inbound-rtp video report. -/
def sampleBitrate (bytesReceived : ℕ) : ℤ :=
  mathRound ((bytesReceived : ℚ) * 8 / 1000)

end Stats

/-- A fully populated streaming context used to evaluate `stopStream`. -/
def liveCtx : Cleanup.Ctx :=
  { reconnectTimeout := some 1, statsInterval := some 2
    webrtc := { pc := some 1, dc := some 2, sessionId := some "s", reconnectAttempts := 1 }
    videoSrc := true, pendingCandidates := [7], isStreaming := true
    fps := 30, bitrate := 100 }

/-! ## Claim theorems -/

namespace Ice

theorem run_append (s : St) (es fs : List Ev) :
    run s (es ++ fs) = run (run s es) fs := by
  simp [run, List.foldl_append]

theorem run_cands_none (cs : List Cand) (b p : List Cand) :
    run { pcId := none, buffer := b, posted := p } (cs.map .cand) =
      { pcId := none, buffer := b ++ cs, posted := p } := by
  induction cs generalizing b with
  | nil => simp [run]
  | cons c cs ih =>
      simp only [List.map_cons, run, List.foldl_cons, step, onIceCandidate]
      have := ih (b ++ [c])
      simp [run] at this
      simp [this]

theorem run_cands_some (ds : List Cand) (id : Nat) (b p : List Cand) :
    run { pcId := some id, buffer := b, posted := p } (ds.map .cand) =
      { pcId := some id, buffer := b, posted := p ++ ds } := by
  induction ds generalizing p with
  | nil => simp [run]
  | cons d ds ih =>
      simp only [List.map_cons, run, List.foldl_cons, step, onIceCandidate]
      have := ih (p ++ [d])
      simp [run] at this
      simp [this]

end Ice

/-- C1: candidates discovered while `_pcId` is unknown are appended to the
pending buffer (none posted); the offer response posts every buffered
candidate exactly once in original discovery order and empties the buffer;
every candidate discovered after the identifier is known is posted
immediately and never buffered, so the final posted list is exactly the
pre-flush candidates followed by the post-flush candidates. -/
theorem C1_candidate_buffer_flush (cs ds : List Ice.Cand) (id : Nat) :
    Ice.run Ice.init (cs.map .cand) =
      { pcId := none, buffer := cs, posted := [] } ∧
    Ice.run Ice.init (cs.map .cand ++ [.offer id]) =
      { pcId := some id, buffer := [], posted := cs } ∧
    Ice.run Ice.init (cs.map .cand ++ [.offer id] ++ ds.map .cand) =
      { pcId := some id, buffer := [], posted := cs ++ ds } := by
  have h1 : Ice.run Ice.init (cs.map .cand) =
      { pcId := none, buffer := cs, posted := [] } := by
    have := Ice.run_cands_none cs [] []
    simpa [Ice.init] using this
  have h2 : Ice.run Ice.init (cs.map .cand ++ [.offer id]) =
      { pcId := some id, buffer := [], posted := cs } := by
    rw [Ice.run_append, h1]
    simp [Ice.run, Ice.step, Ice.onOfferResponse]
  refine ⟨h1, h2, ?_⟩
  rw [Ice.run_append, h2]
  simpa using Ice.run_cands_some ds id [] cs

/-- C2 evidence: four data-channel closes, each followed by its scheduled
reconnect timer firing, produce four timer-driven `startStream`
invocations, each observing an attempt counter of 1 (because `startStream`
resets `reconnectAttempts` to 0 on every retry); the terminal failure
branch is never reached and a context is never left in a failed state with
reconnection stopped. -/
theorem C2_reconnect_cap_unreachable :
    Rtc.run Rtc.init
        [.dcClose, .timerFire, .dcClose, .timerFire,
         .dcClose, .timerFire, .dcClose, .timerFire] =
      { attempts := 0, timer := none, startLog := [1, 1, 1, 1]
        failedToast := false, isStreaming := false, pings := 0, pongLogs := 0 } := by
  decide

/-- C3 counterexample: on the first data-channel close (counter 0, below
the cap) the source schedules the retry after `2000 * 0 = 0` ms, whereas
`2^attempt * base_delay = 2^0 * 2000 = 2000` ms; the backoff is linear,
not exponential. -/
theorem C3_delay_not_exponential :
    (Rtc.step Rtc.init .dcClose).timer = some 0 ∧
    2000 * 2 ^ Rtc.init.attempts = 2000 ∧
    some (0 : Nat) ≠ some (2000 : Nat) := by
  decide

/-- C3 amended: for a close with the counter `n` below the cap, the retry
is scheduled after `2000 * n` ms (linear backoff on the pre-increment
counter, so the first retry fires immediately); when the timer fires the
counter is incremented before `startStream` runs (the retry observes
`n + 1`), and `startStream` then resets the counter to 0. -/
theorem C3_linear_backoff (s : Rtc.St) (h : s.attempts < 3) :
    (Rtc.step s .dcClose).timer = some (2000 * s.attempts) ∧
    (Rtc.run s [.dcClose, .timerFire]).startLog = s.startLog ++ [s.attempts + 1] ∧
    (Rtc.run s [.dcClose, .timerFire]).attempts = 0 := by
  refine ⟨?_, ?_, ?_⟩ <;> simp [Rtc.run, Rtc.step, h]

/-- C3 witness: the amended statement instantiated at the initial context. -/
theorem C3_linear_backoff_witness :
    Rtc.init.attempts < 3 ∧
    (Rtc.step Rtc.init .dcClose).timer = some (2000 * Rtc.init.attempts) :=
  ⟨by decide, (C3_linear_backoff Rtc.init (by decide)).1⟩

/-- C4 counterexample: after a click is sent with correlation id "c1" in
field `id`, a `click_response` carrying the unrelated id "c9" is not
ignored: the handler reports it (success toast keyed by its `clickId`),
performing no correlation with the outstanding click. -/
theorem C4_click_response_not_correlated :
    (Control.handleVideoClick (some { readyState := "open" }) 5 6 "c1" 0).1 =
      some { x := 5, y := 6, id := "c1", timestamp := 0 } ∧
    Control.onMessage
        { type := "click_response", success := true, id := some "c9"
          clickId := some "c9", error := none } =
      Control.Outcome.toastSuccess (some "c9") ∧
    Control.Outcome.toastSuccess (some "c9") ≠ Control.Outcome.ignored := by
  refine ⟨rfl, rfl, by simp⟩

/-- C4 amended: every outbound click carries the client-generated
correlation id in the field named `id`; the `click_response` handler
processes every response of that type — its outcome depends only on the
`success`, `clickId` and `error` fields (never on `id`, the field the
sender populated), it never ignores a `click_response`, and the id it
reports is the response's own `clickId`, unchecked against any pending
click. -/
theorem C4_click_response_any_id (x y : Nat) (cid : String) (ts : Nat)
    (r r' : Control.Incoming)
    (hr : r.type = "click_response") (hr' : r'.type = "click_response")
    (hs : r.success = r'.success) (hc : r.clickId = r'.clickId)
    (he : r.error = r'.error) :
    (Control.handleVideoClick (some { readyState := "open" }) x y cid ts).1 =
      some { x := x, y := y, id := cid, timestamp := ts } ∧
    Control.onMessage r = Control.onMessage r' ∧
    Control.onMessage r ≠ Control.Outcome.ignored := by
  refine ⟨rfl, ?_, ?_⟩
  · simp [Control.onMessage, hr, hr', hs, hc, he]
  · simp only [Control.onMessage, hr]
    norm_num
    by_cases hsucc : r.success <;> simp [hsucc]

/-- C4 witness: two responses differing only in their `id` field are
handled identically and not ignored. -/
theorem C4_click_response_any_id_witness :
    Control.onMessage
        { type := "click_response", success := true, id := some "a"
          clickId := some "k", error := none } =
      Control.onMessage
        { type := "click_response", success := true, id := some "b"
          clickId := some "k", error := none } :=
  (C4_click_response_any_id 1 2 "c1" 0
    { type := "click_response", success := true, id := some "a"
      clickId := some "k", error := none }
    { type := "click_response", success := true, id := some "b"
      clickId := some "k", error := none }
    rfl rfl rfl rfl rfl).2.1

/-- C5: `stopStream` is idempotent and safe from the released state:
on any context whose resources are already released it performs no
observable action and returns the same state; after any `stopStream` the
context is released, so a second `stopStream` in a row changes nothing and
performs no action — two calls are observably the same as one. -/
theorem C5_stopStream_idempotent (s t : Cleanup.Ctx)
    (hrel : Cleanup.isReleased t = true) :
    Cleanup.stopStream t = (t, []) ∧
    Cleanup.isReleased (Cleanup.stopStream s).1 = true ∧
    Cleanup.stopStream (Cleanup.stopStream s).1 = ((Cleanup.stopStream s).1, []) := by
  obtain ⟨rt, si, w, v, pcs, str, f, b⟩ := t
  simp only [Cleanup.isReleased, Bool.and_eq_true, beq_iff_eq] at hrel
  obtain ⟨⟨⟨⟨⟨⟨h1, h2⟩, h3⟩, h4⟩, h5⟩, h6⟩, h7⟩ := hrel
  subst h1 h2 h3 h4 h5 h6 h7
  refine ⟨?_, ?_, ?_⟩
  · simp [Cleanup.stopStream]
  · simp [Cleanup.stopStream, Cleanup.isReleased]
  · simp [Cleanup.stopStream]

/-- C5 witness: the idempotence statement instantiated at a concrete
released context. -/
theorem C5_stopStream_idempotent_witness :
    Cleanup.stopStream
        { reconnectTimeout := none, statsInterval := none
          webrtc := { pc := none, dc := none, sessionId := none, reconnectAttempts := 0 }
          videoSrc := false, pendingCandidates := [], isStreaming := false
          fps := 0, bitrate := 0 } =
      ({ reconnectTimeout := none, statsInterval := none
         webrtc := { pc := none, dc := none, sessionId := none, reconnectAttempts := 0 }
         videoSrc := false, pendingCandidates := [], isStreaming := false
         fps := 0, bitrate := 0 }, []) :=
  (C5_stopStream_idempotent
    { reconnectTimeout := none, statsInterval := none
      webrtc := { pc := none, dc := none, sessionId := none, reconnectAttempts := 0 }
      videoSrc := false, pendingCandidates := [], isStreaming := false
      fps := 0, bitrate := 0 }
    { reconnectTimeout := none, statsInterval := none
      webrtc := { pc := none, dc := none, sessionId := none, reconnectAttempts := 0 }
      videoSrc := false, pendingCandidates := [], isStreaming := false
      fps := 0, bitrate := 0 }
    (by decide)).1

/-- C6 counterexample: on a context whose candidate buffer holds one
candidate, `stopStream` leaves the buffer untouched (still `[7]`, not
empty) — closing does not clear the candidate buffer. -/
theorem C6_buffer_not_cleared :
    (Cleanup.stopStream liveCtx).1.pendingCandidates = [7] ∧
    ([7] : List Nat) ≠ [] := by
  refine ⟨rfl, by simp⟩

/-- C6 amended: closing a streaming context cancels the pending reconnect
timer, stops the stats-sampling interval, closes and releases the data
channel and peer connection (the close calls sit in a catch-all block and
the platform close operations do not throw, so cleanup always completes),
but the candidate buffer is not cleared by `stopStream` — it is reset only
by the next `startStream`. -/
theorem C6_stopStream_cleanup (s : Cleanup.Ctx)
    (hdc : s.webrtc.dc.isSome = true) (hpc : s.webrtc.pc.isSome = true) :
    (Cleanup.stopStream s).1.reconnectTimeout = none ∧
    (Cleanup.stopStream s).1.statsInterval = none ∧
    (Cleanup.stopStream s).1.webrtc.dc = none ∧
    (Cleanup.stopStream s).1.webrtc.pc = none ∧
    Cleanup.Eff.closeDc ∈ (Cleanup.stopStream s).2 ∧
    Cleanup.Eff.closePc ∈ (Cleanup.stopStream s).2 ∧
    (Cleanup.stopStream s).1.pendingCandidates = s.pendingCandidates ∧
    (Cleanup.startStreamResetBuffer (Cleanup.stopStream s).1).pendingCandidates = [] := by
  refine ⟨rfl, rfl, rfl, rfl, ?_, ?_, rfl, rfl⟩ <;>
    simp [Cleanup.stopStream, hdc, hpc]

/-- C6 witness: the amended cleanup statement at the concrete live
context. -/
theorem C6_stopStream_cleanup_witness :
    liveCtx.webrtc.dc.isSome = true ∧
    Cleanup.Eff.closeDc ∈ (Cleanup.stopStream liveCtx).2 :=
  ⟨by decide, (C6_stopStream_cleanup liveCtx (by decide) (by decide)).2.2.2.2.1⟩

namespace Rtc

theorem run_no_close (es : List Ev) : ∀ (s : St), Ev.dcClose ∉ es →
    s.timer = none →
    (run s es).timer = none ∧ (run s es).startLog = s.startLog := by
  induction es with
  | nil => intro s _ ht; exact ⟨ht, rfl⟩
  | cons e es ih =>
      intro s hmem ht
      have hne : e ≠ Ev.dcClose := fun h => hmem (h ▸ List.mem_cons_self e es)
      have hmem' : Ev.dcClose ∉ es := fun h => hmem (List.mem_cons_of_mem e h)
      have hstep : (step s e).timer = none ∧ (step s e).startLog = s.startLog := by
        cases e with
        | dcOpen => exact ⟨ht, rfl⟩
        | dcPong => exact ⟨ht, rfl⟩
        | dcClose => exact absurd rfl hne
        | timerFire => simp [step, ht]
      have := ih (step s e) hmem' hstep.1
      refine ⟨?_, ?_⟩
      · simpa [run] using this.1
      · rw [show (run s (e :: es)).startLog = (run (step s e) es).startLog from rfl,
          this.2, hstep.2]

end Rtc

/-- C7: a data-channel open sends exactly one liveness ping (and leaves the
reconnect timer untouched); receiving a pong only records a log entry and
changes nothing else; and in any handler sequence containing no
data-channel close, no reconnect timer becomes pending and no
timer-driven reconnection is initiated — reconnection is driven solely by
the transport-level close signal. -/
theorem C7_ping_once_pong_informational (s : Rtc.St) (es : List Rtc.Ev)
    (hnoclose : Rtc.Ev.dcClose ∉ es) (ht : s.timer = none) :
    (Rtc.step s .dcOpen).pings = s.pings + 1 ∧
    (Rtc.step s .dcOpen).timer = s.timer ∧
    Rtc.step s .dcPong = { s with pongLogs := s.pongLogs + 1 } ∧
    (Rtc.run s es).timer = none ∧
    (Rtc.run s es).startLog = s.startLog := by
  have h := Rtc.run_no_close es s hnoclose ht
  exact ⟨rfl, rfl, rfl, h.1, h.2⟩

/-- C7 witness: the statement at the initial context with an open followed
by a pong. -/
theorem C7_ping_once_pong_informational_witness :
    (Rtc.step Rtc.init .dcOpen).pings = Rtc.init.pings + 1 ∧
    (Rtc.run Rtc.init [Rtc.Ev.dcOpen, Rtc.Ev.dcPong]).startLog = Rtc.init.startLog :=
  have h := C7_ping_once_pong_informational Rtc.init
    [Rtc.Ev.dcOpen, Rtc.Ev.dcPong] (by decide) rfl
  ⟨h.1, h.2.2.2.2⟩

namespace Scroll

theorem fired_burst (w : Nat) :
    ∀ (es : List (Nat × Int)) (hne : es ≠ []),
      List.Chain' (fun a b => b.1 < a.1 + w) es →
      fired w es = [(es.getLast hne).2]
  | [], hne, _ => absurd rfl hne
  | [(_, _)], _, _ => by simp [fired]
  | (t, d) :: (t', d') :: rest, _, h => by
      have hchain := List.chain'_cons.mp h
      have hlt : ¬ t + w ≤ t' := Nat.not_le.mpr hchain.1
      have ih := fired_burst w ((t', d') :: rest) (by simp) hchain.2
      rw [show fired w ((t, d) :: (t', d') :: rest) =
            fired w ((t', d') :: rest) from by simp [fired, hlt],
        ih, List.getLast_cons_cons]

end Scroll

/-- C8: for every nonempty burst of timestamped scroll deltas in which each
event arrives strictly within the 100 ms debounce window of its
predecessor, exactly one debounced invocation fires and it carries the
last delta of the burst (all earlier deltas are discarded before
transmission); with the channel open, that invocation transmits exactly
the scroll message holding that last delta. -/
theorem C8_scroll_debounce_last_delta (es : List (Nat × Int)) (hne : es ≠ [])
    (hburst : List.Chain' (fun a b => b.1 < a.1 + Scroll.scrollWait) es) :
    Scroll.fired Scroll.scrollWait es = [(es.getLast hne).2] ∧
    (Scroll.fired Scroll.scrollWait es).length = 1 ∧
    Control.sendScrollBody (some { readyState := "open" }) (es.getLast hne).2 =
      (some { deltaY := (es.getLast hne).2 }, false) := by
  have h := Scroll.fired_burst Scroll.scrollWait es hne hburst
  exact ⟨h, by rw [h]; rfl, rfl⟩

/-- C8 witness: a concrete burst of three scroll deltas inside the window
collapses to a single transmission of the last delta. -/
theorem C8_scroll_debounce_last_delta_witness :
    Scroll.fired Scroll.scrollWait [(0, 1), (50, 2), (90, 5)] = [5] :=
  (C8_scroll_debounce_last_delta [(0, 1), (50, 2), (90, 5)]
    (by simp)
    (by simp [List.chain'_cons, List.chain'_singleton, Scroll.scrollWait])).1

/-- C9: each control-message sender (`handleVideoClick`, the debounced
scroll body, `sendType`) first checks the data channel: when the channel
is absent or not open it sends nothing and reports "channel not ready";
when the channel is open it sends its message and reports nothing. -/
theorem C9_channel_ready_guard (dc : Option Control.DC) (x y : Nat)
    (cid : String) (ts : Nat) (dy : Int) (txt : String) :
    (Control.channelReady dc = false →
      Control.handleVideoClick dc x y cid ts = (none, true) ∧
      Control.sendScrollBody dc dy = (none, true) ∧
      Control.sendType dc txt = (none, true)) ∧
    (Control.channelReady dc = true →
      Control.handleVideoClick dc x y cid ts =
        (some { x := x, y := y, id := cid, timestamp := ts }, false) ∧
      Control.sendScrollBody dc dy = (some { deltaY := dy }, false) ∧
      Control.sendType dc txt = (some { text := txt }, false)) := by
  refine ⟨fun h => ?_, fun h => ?_⟩
  all_goals simp [Control.handleVideoClick, Control.sendScrollBody, Control.sendType, h]

/-- C9 witness: with no data channel nothing is sent; with an open channel
the click message is sent. -/
theorem C9_channel_ready_guard_witness :
    Control.handleVideoClick none 1 2 "c1" 0 = (none, true) ∧
    Control.sendType (some { readyState := "open" }) "hi" =
      (some { text := "hi" }, false) :=
  ⟨((C9_channel_ready_guard none 1 2 "c1" 0 3 "hi").1 rfl).1,
   ((C9_channel_ready_guard (some { readyState := "open" }) 1 2 "c1" 0 3 "hi").2
      rfl).2.2⟩

/-- C10: the quality monitor samples on a 2000 ms interval and publishes
`Math.round(bytesReceived * 8 / 1000)` computed from the cumulative
received-byte counter, so across samples of one uninterrupted connection
(where `bytesReceived` only grows) the published bitrate is monotonically
non-decreasing — a cumulative figure, not an instantaneous rate. -/
theorem C10_bitrate_cumulative_monotone (a b : ℕ) (h : a ≤ b) :
    Stats.statsIntervalMs = 2000 ∧
    Stats.sampleBitrate a = Stats.mathRound ((a : ℚ) * 8 / 1000) ∧
    Stats.sampleBitrate a ≤ Stats.sampleBitrate b := by
  refine ⟨rfl, rfl, ?_⟩
  unfold Stats.sampleBitrate Stats.mathRound
  apply Int.floor_le_floor
  have hq : (a : ℚ) ≤ (b : ℚ) := by exact_mod_cast h
  have h8 : (a : ℚ) * 8 ≤ (b : ℚ) * 8 := by linarith
  have hdiv : (a : ℚ) * 8 / 1000 ≤ (b : ℚ) * 8 / 1000 :=
    div_le_div_of_nonneg_right h8 (by norm_num)
  linarith

/-- C10 witness: the monotonicity statement at two concrete cumulative
byte counts. -/
theorem C10_bitrate_cumulative_monotone_witness :
    (125 : ℕ) ≤ 250 ∧ Stats.sampleBitrate 125 ≤ Stats.sampleBitrate 250 :=
  ⟨by decide, (C10_bitrate_cumulative_monotone 125 250 (by decide)).2.2⟩

end SentinelID
